import Mathlib

/-!
Shallow embedding of the Signal-bot core (`src/bot/main.go`) and of the
Pending Correlation Table described in the specification.

Go strings are modelled as Lean `String`; `strings.HasPrefix` and
`strings.TrimPrefix` are modelled on the character lists underlying the
strings (equivalent to Go's byte-level operations for valid UTF-8 inputs
aligned on rune boundaries, which all trigger prefixes are).
`strings.TrimSpace` is modelled by `String.trim`.
-/

namespace SignalBotModel

/-- Go `strings.HasPrefix s pre`. -/
def hasPrefix (s pre : String) : Bool :=
  pre.data.isPrefixOf s.data

/-- Go `strings.TrimPrefix s pre`: drops `pre` when it is a prefix, else returns `s`. -/
def trimPrefix (s pre : String) : String :=
  if hasPrefix s pre then ⟨s.data.drop pre.data.length⟩ else s

/-- Go `strings.TrimSpace`: strips leading and trailing whitespace characters. -/
def trimSpace (s : String) : String :=
  ⟨((s.data.dropWhile Char.isWhitespace).reverse.dropWhile Char.isWhitespace).reverse⟩

/-- `Config` from `src/bot/main.go`. -/
structure Config where
  AIPrefix : String
  AgentURL : String
  deriving Repr, DecidableEq

/-- `GroupInfo` JSON object inside a Signal envelope. -/
structure GroupInfo where
  groupId : String
  groupName : String
  deriving Repr, DecidableEq

/-- `sentMessage` object of a sync message. -/
structure SentMessage where
  message : String
  groupInfo : GroupInfo
  deriving Repr, DecidableEq

/-- `syncMessage` object of an envelope. -/
structure SyncMessage where
  sentMessage : SentMessage
  deriving Repr, DecidableEq

/-- `dataMessage` object of an envelope. -/
structure DataMessage where
  message : String
  groupInfo : GroupInfo
  deriving Repr, DecidableEq

/-- `envelope` object of a Signal message. -/
structure Envelope where
  source : String
  timestamp : Int
  syncMessage : SyncMessage
  dataMessage : DataMessage
  deriving Repr, DecidableEq

/-- `Message` from `src/bot/main.go`. -/
structure Message where
  envelope : Envelope
  deriving Repr, DecidableEq

/-- `SignalBot` from `src/bot/main.go` (logger omitted: pure model). -/
structure SignalBot where
  config : Config
  triggers : List String
  deriving Repr, DecidableEq

/-- `getEnv`: environment variable lookup with fallback. -/
def getEnv (val : Option String) (fallback : String) : String :=
  val.getD fallback

/-- `NewSignalBot`: builds the bot from the (optional) `AI_PREFIX` and
`AGENT_URL` environment variables; the trigger list is
`["🤖 ", "qq ", AIPrefix ++ " "]` in that order. -/
def NewSignalBot (aiPrefixEnv agentUrlEnv : Option String) : SignalBot :=
  let config : Config :=
    { AIPrefix := getEnv aiPrefixEnv "!ai"
      AgentURL := getEnv agentUrlEnv "" }
  { config := config
    triggers := ["🤖 ", "qq ", config.AIPrefix ++ " "] }

/-- `validateConfig` from `src/bot/main.go`. -/
def SignalBot.validateConfig (bot : SignalBot) : Except String Unit :=
  if bot.config.AgentURL = "" then
    .error "AGENT_URL environment variable is required"
  else if ¬ hasPrefix bot.config.AgentURL "http://" ∧
          ¬ hasPrefix bot.config.AgentURL "https://" then
    .error "invalid agent URL (must start with http:// or https://)"
  else
    .ok ()

/-- The configuration-validation guard at the top of `Run`
(`src/bot/main.go` lines 297-300): the loop is entered only when
`validateConfig` succeeds. -/
def SignalBot.RunGate (bot : SignalBot) : Except String Unit :=
  match bot.validateConfig with
  | .error e => .error ("configuration error: " ++ e)
  | .ok _ => .ok ()

/-- `Message.extractContent`: sync-message text if non-empty, else data-message text. -/
def Message.extractContent (msg : Message) : String :=
  if msg.envelope.syncMessage.sentMessage.message ≠ "" then
    msg.envelope.syncMessage.sentMessage.message
  else
    msg.envelope.dataMessage.message

/-- `Message.extractGroupId`: sync-message group id if non-empty, else data-message group id. -/
def Message.extractGroupId (msg : Message) : String :=
  if msg.envelope.syncMessage.sentMessage.groupInfo.groupId ≠ "" then
    msg.envelope.syncMessage.sentMessage.groupInfo.groupId
  else
    msg.envelope.dataMessage.groupInfo.groupId

/-- `Message.getRecipient`: group form when a group id is present, else the envelope source. -/
def Message.getRecipient (msg : Message) : String :=
  if msg.extractGroupId ≠ "" then "-g " ++ msg.extractGroupId
  else msg.envelope.source

/-- The `for` loop of `isTriggered`: first prefix match wins. -/
def isTriggeredLoop : List String → String → Bool
  | [], _ => false
  | trigger :: rest, content =>
    if hasPrefix content trigger then true else isTriggeredLoop rest content

/-- `SignalBot.isTriggered` from `src/bot/main.go`. -/
def SignalBot.isTriggered (bot : SignalBot) (content : String) : Bool :=
  isTriggeredLoop bot.triggers content

/-- The `for` loop of `extractPrompt`: strips the first matching prefix and trims. -/
def extractPromptLoop : List String → String → String
  | [], content => content
  | trigger :: rest, content =>
    if hasPrefix content trigger then trimSpace (trimPrefix content trigger)
    else extractPromptLoop rest content

/-- `SignalBot.extractPrompt` from `src/bot/main.go`. -/
def SignalBot.extractPrompt (bot : SignalBot) (content : String) : String :=
  extractPromptLoop bot.triggers content

/-- `sendReply`'s argument vector to `signal-cli` (`src/bot/main.go` lines 135-161):
the observable effect of one send. -/
def sendReplyArgs (recipient text : String) (quoteMsgId : Int) (quoteAuthor : String) :
    List String :=
  let formattedText := "_" ++ text ++ "_"
  if hasPrefix recipient "-g " then
    let groupId := trimPrefix recipient "-g "
    let args := ["send", "-g", groupId, "-m", formattedText]
    if quoteMsgId > 0 ∧ quoteAuthor ≠ "" then
      args ++ ["--quote-timestamp", toString quoteMsgId, "--quote-author", quoteAuthor]
    else args
  else
    let args := ["send", "-m", formattedText, recipient]
    if quoteMsgId > 0 ∧ quoteAuthor ≠ "" then
      args ++ ["--quote-timestamp", toString quoteMsgId, "--quote-author", quoteAuthor]
    else args

/-- One dispatched send: recipient, reply text and quote metadata,
as handed to `sendReply`. -/
structure SendAction where
  recipient : String
  text : String
  quoteMsgId : Int
  quoteAuthor : String
  deriving Repr, DecidableEq

/-- The apology literal from `processMessage`. -/
def apologyReply : String :=
  "Sorry, I encountered an error processing your request."

/-- `processMessage` from `src/bot/main.go`, as a pure trace: the agent is a
function from prompt to result; the return value is `none` when the message
is a no-op (no agent call, no send), and otherwise records the prompt sent
to the agent together with the dispatched send. -/
def SignalBot.processMessage (bot : SignalBot)
    (agent : String → Except String String) (msg : Message) :
    Option (String × SendAction) :=
  let content := msg.extractContent
  if content = "" then none
  else if ¬ bot.isTriggered content then none
  else
    let prompt := bot.extractPrompt content
    if prompt = "" then none
    else
      let reply :=
        match agent prompt with
        | .ok r => r
        | .error _ => apologyReply
      some (prompt,
        { recipient := msg.getRecipient
          text := reply
          quoteMsgId := msg.envelope.timestamp
          quoteAuthor := msg.envelope.source })

/-- Modelled from the spec: the Pending Correlation Table (section 4.3) —
`put`, `takeIfPresent` and its TTL bookkeeping — is described by the
specification but absent from the sources provided; entries map an outbound
timestamp to the extracted prompt and record their creation instant, with
at most one entry per timestamp. -/
structure PendingTable where
  entries : List (Int × String × Int)
  deriving Repr, DecidableEq

/-- Modelled from the spec: `put(timestamp, prompt)` inserts or overwrites
(at most one entry per timestamp) and records the creation instant. -/
def PendingTable.put (t : PendingTable) (ts : Int) (prompt : String) (now : Int) :
    PendingTable :=
  { entries := (ts, prompt, now) :: t.entries.filter (fun e => e.1 ≠ ts) }

/-- Modelled from the spec: `takeIfPresent(timestampSet)` returns the first
matching entry's prompt and atomically removes that entry; returns nothing
when no timestamp in the set is present. -/
def PendingTable.takeIfPresent (t : PendingTable) (tsSet : List Int) :
    Option String × PendingTable :=
  match tsSet.findSome? (fun ts =>
      (t.entries.find? (fun e => e.1 = ts)).map (fun e => (ts, e.2.1))) with
  | some (ts, p) => (some p, { entries := t.entries.filter (fun e => e.1 ≠ ts) })
  | none => (none, t)

/-- Modelled from the spec: `sweepExpired(now)` removes every entry whose
age exceeds the TTL. -/
def PendingTable.sweepExpired (t : PendingTable) (now ttl : Int) : PendingTable :=
  { entries := t.entries.filter (fun e => now - e.2.2 ≤ ttl) }


/-- Default bot: no environment overrides (`AI_PREFIX` falls back to `"!ai"`). -/
def defaultBot : SignalBot := NewSignalBot none none

/-- An empty `GroupInfo` (individual conversation). -/
def noGroup : GroupInfo := { groupId := "", groupName := "" }

/-- A reflected (sync sent-message) individual message with a triggered text. -/
def reflectedMsg : Message :=
  { envelope :=
      { source := "+op"
        timestamp := 1000
        syncMessage := { sentMessage := { message := "!ai what is 2+2", groupInfo := noGroup } }
        dataMessage := { message := "", groupInfo := noGroup } } }

/-- A reflected message whose remainder after the trigger is empty. -/
def emptyPromptMsg : Message :=
  { envelope :=
      { source := "+op"
        timestamp := 1000
        syncMessage := { sentMessage := { message := "!ai ", groupInfo := noGroup } }
        dataMessage := { message := "", groupInfo := noGroup } } }

/-- A message where both the sync and the data branches carry non-empty
text and group ids, to exhibit the sync preference. -/
def bothBranchesMsg : Message :=
  { envelope :=
      { source := "+third"
        timestamp := 2000
        syncMessage := { sentMessage := { message := "sync text", groupInfo := { groupId := "gSync", groupName := "S" } } }
        dataMessage := { message := "data text", groupInfo := { groupId := "gData", groupName := "D" } } } }

theorem isTriggeredLoop_eq_any (ts : List String) (c : String) :
    isTriggeredLoop ts c = ts.any (fun t => hasPrefix c t) := by
  induction ts with
  | nil => rfl
  | cons t rest ih =>
    simp only [isTriggeredLoop, List.any_cons]
    by_cases h : hasPrefix c t
    · simp [h]
    · simp [h, ih]

theorem extractPromptLoop_no_match (ts : List String) (c : String)
    (h : ∀ t ∈ ts, hasPrefix c t = false) : extractPromptLoop ts c = c := by
  induction ts with
  | nil => rfl
  | cons t rest ih =>
    have ht : hasPrefix c t = false := h t (List.mem_cons_self t rest)
    simp only [extractPromptLoop, ht, Bool.false_eq_true, if_false]
    exact ih (fun u hu => h u (List.mem_cons_of_mem t hu))

theorem isTriggeredLoop_no_match (ts : List String) (c : String)
    (h : ∀ t ∈ ts, hasPrefix c t = false) : isTriggeredLoop ts c = false := by
  rw [isTriggeredLoop_eq_any]
  simp only [List.any_eq_false]
  intro t ht
  simp [h t ht]

/-- C1 counterexample: with the default configuration, `"QQ hello"` does NOT
trigger the bot (while `"qq hello"` does) — the short trigger `"qq "` is
compared case-sensitively, contradicting the claimed case-insensitive match. -/
theorem C1_counterexample :
    defaultBot.isTriggered "QQ hello" = false ∧
    defaultBot.isTriggered "qq hello" = true := by
  constructor <;> decide

/-- C1 (amended): `isTriggered` compares EVERY prefix of the ordered trigger
set — including the short colloquial trigger `"qq "` — by exact, case-sensitive
prefix comparison: `"qq hello"` triggers and `"QQ hello"`, `"Qq hello"`,
`"qQ hello"` do not. -/
theorem C1_caseSensitive :
    (∀ (bot : SignalBot) (content : String),
        bot.isTriggered content = bot.triggers.any (fun t => hasPrefix content t)) ∧
    defaultBot.isTriggered "qq hello" = true ∧
    defaultBot.isTriggered "QQ hello" = false ∧
    defaultBot.isTriggered "Qq hello" = false ∧
    defaultBot.isTriggered "qQ hello" = false := by
  refine ⟨fun bot content => isTriggeredLoop_eq_any bot.triggers content, ?_, ?_, ?_, ?_⟩ <;>
    decide

/-- C5: a message whose text matches a trigger prefix but whose remainder after
trimming is empty is a no-op: no completion-client call, no send (and there is
no pending table to mutate). -/
theorem C5_emptyPrompt_noop (bot : SignalBot) (agent : String → Except String String)
    (msg : Message) (ht : bot.isTriggered msg.extractContent = true)
    (hp : bot.extractPrompt msg.extractContent = "") :
    bot.processMessage agent msg = none := by
  unfold SignalBot.processMessage
  by_cases hc : msg.extractContent = ""
  · simp [hc]
  · simp [hc, ht, hp]

/-- C5 witness: the reflected message `"!ai "` is triggered, its trimmed prompt
is empty, and processing it produces no agent call and no send. -/
theorem C5_emptyPrompt_noop_witness :
    defaultBot.isTriggered (emptyPromptMsg.extractContent) = true ∧
    defaultBot.extractPrompt (emptyPromptMsg.extractContent) = "" ∧
    defaultBot.processMessage (fun _ => Except.ok "4") emptyPromptMsg = none :=
  ⟨by decide, by decide,
    C5_emptyPrompt_noop defaultBot (fun _ => Except.ok "4") emptyPromptMsg
      (by decide) (by decide)⟩

/-- C6: when no configured trigger prefix matches, `isTriggered` is false and
`extractPrompt` returns the text unchanged. -/
theorem C6_noMatch_identity (bot : SignalBot) (content : String)
    (h : ∀ t ∈ bot.triggers, hasPrefix content t = false) :
    bot.isTriggered content = false ∧ bot.extractPrompt content = content :=
  ⟨isTriggeredLoop_no_match bot.triggers content h,
   extractPromptLoop_no_match bot.triggers content h⟩

/-- C6 witness: `"hello"` matches no default trigger; it does not trigger and
`extractPrompt` leaves it unchanged. -/
theorem C6_noMatch_identity_witness :
    (∀ t ∈ defaultBot.triggers, hasPrefix "hello" t = false) ∧
    defaultBot.isTriggered "hello" = false ∧
    defaultBot.extractPrompt "hello" = "hello" :=
  ⟨by decide, C6_noMatch_identity defaultBot "hello" (by decide)⟩

/-- C8: the start-up gate of `Run` succeeds (and the loop is entered) exactly
when the agent URL begins with `http://` or `https://`; an empty URL has
neither prefix, so it is rejected, and a valid URL passes `validateConfig`
unchanged (`Config` is immutable data in this model, never rebuilt after
validation). -/
theorem C8_validateConfig_iff (bot : SignalBot) :
    (bot.RunGate = Except.ok () ↔
      (hasPrefix bot.config.AgentURL "http://" = true ∨
       hasPrefix bot.config.AgentURL "https://" = true)) ∧
    (bot.config.AgentURL = "" → ∃ e, bot.RunGate = Except.error e) := by
  constructor
  · unfold SignalBot.RunGate SignalBot.validateConfig
    by_cases h0 : bot.config.AgentURL = ""
    · rw [h0]
      simp [hasPrefix]
    · by_cases h1 : hasPrefix bot.config.AgentURL "http://"
      · simp [h0, h1]
      · by_cases h2 : hasPrefix bot.config.AgentURL "https://"
        · simp [h0, h1, h2]
        · simp [h0, h1, h2]
  · intro h0
    unfold SignalBot.RunGate SignalBot.validateConfig
    rw [h0]
    simp

/-- C8 witness: `https://example.org` passes the gate; the empty default URL
is rejected. -/
theorem C8_validateConfig_iff_witness :
    hasPrefix (NewSignalBot none (some "https://example.org")).config.AgentURL "https://" = true ∧
    (NewSignalBot none (some "https://example.org")).RunGate = Except.ok () ∧
    (NewSignalBot none none).config.AgentURL = "" ∧
    ∃ e, (NewSignalBot none none).RunGate = Except.error e :=
  ⟨by decide,
   (C8_validateConfig_iff (NewSignalBot none (some "https://example.org"))).1.mpr
     (Or.inr (by decide)),
   by decide,
   (C8_validateConfig_iff (NewSignalBot none none)).2 (by decide)⟩

/-- C9: content and group-id extraction prefer the sync (reflected) branch:
a non-empty sync text is returned even when the data text is non-empty, and
a non-empty sync group id determines the group-addressed recipient. -/
theorem C9_syncPreferred (msg : Message) :
    (msg.envelope.syncMessage.sentMessage.message ≠ "" →
      msg.extractContent = msg.envelope.syncMessage.sentMessage.message) ∧
    (msg.envelope.syncMessage.sentMessage.groupInfo.groupId ≠ "" →
      msg.extractGroupId = msg.envelope.syncMessage.sentMessage.groupInfo.groupId ∧
      msg.getRecipient = "-g " ++ msg.envelope.syncMessage.sentMessage.groupInfo.groupId) := by
  constructor
  · intro h
    simp [Message.extractContent, h]
  · intro h
    have hg : msg.extractGroupId = msg.envelope.syncMessage.sentMessage.groupInfo.groupId := by
      simp [Message.extractGroupId, h]
    refine ⟨hg, ?_⟩
    rw [Message.getRecipient, hg]
    simp [h]

/-- C9 witness: on a message whose sync and data branches both carry non-empty
text and group ids, extraction returns the sync text and sync group id, and
the recipient is the sync group. -/
theorem C9_syncPreferred_witness :
    bothBranchesMsg.envelope.dataMessage.message ≠ "" ∧
    bothBranchesMsg.envelope.dataMessage.groupInfo.groupId ≠ "" ∧
    bothBranchesMsg.extractContent = bothBranchesMsg.envelope.syncMessage.sentMessage.message ∧
    bothBranchesMsg.extractGroupId =
      bothBranchesMsg.envelope.syncMessage.sentMessage.groupInfo.groupId ∧
    bothBranchesMsg.getRecipient =
      "-g " ++ bothBranchesMsg.envelope.syncMessage.sentMessage.groupInfo.groupId :=
  ⟨by decide, by decide,
   (C9_syncPreferred bothBranchesMsg).1 (by decide),
   ((C9_syncPreferred bothBranchesMsg).2 (by decide)).1,
   ((C9_syncPreferred bothBranchesMsg).2 (by decide)).2⟩

/-- C10: the `signal-cli` argument vector of every reply is the group or
individual base form with the text wrapped in italic markers, followed by the
quote metadata exactly when the quoted timestamp is strictly positive and the
quote author is non-empty. -/
theorem C10_sendArgs_quote_iff (recipient text : String) (quoteMsgId : Int)
    (quoteAuthor : String) :
    sendReplyArgs recipient text quoteMsgId quoteAuthor =
      (if hasPrefix recipient "-g " then
        ["send", "-g", trimPrefix recipient "-g ", "-m", "_" ++ text ++ "_"]
      else
        ["send", "-m", "_" ++ text ++ "_", recipient]) ++
      (if quoteMsgId > 0 ∧ quoteAuthor ≠ "" then
        ["--quote-timestamp", toString quoteMsgId, "--quote-author", quoteAuthor]
      else []) := by
  unfold sendReplyArgs
  by_cases hg : hasPrefix recipient "-g " <;>
    by_cases hq : quoteMsgId > 0 ∧ quoteAuthor ≠ "" <;>
      simp [hg, hq]

/-- C2 counterexample: processing the reflected individual message
`"!ai what is 2+2"` at timestamp 1000 does NOT defer to a pending table —
the trace shows the completion client was called with `"what is 2+2"` and a
reply was dispatched immediately to the envelope source, contradicting the
claimed put-and-return-without-reply behavior (no pending correlation table
exists in `processMessage`). -/
theorem C2_counterexample :
    defaultBot.processMessage (fun _ => Except.ok "4") reflectedMsg =
      some ("what is 2+2",
        { recipient := "+op", text := "4", quoteMsgId := 1000, quoteAuthor := "+op" }) := by
  decide

/-- C2 (amended): for every triggered message with a non-empty prompt and no
group identifier — reflected ones included — `processMessage` immediately
calls the completion client with the prompt and dispatches the reply to the
envelope source, quoting the message timestamp and the source; nothing is
deferred to a delivery receipt. -/
theorem C2_immediateReply (bot : SignalBot) (agent : String → Except String String)
    (msg : Message)
    (hc : msg.extractContent ≠ "")
    (ht : bot.isTriggered msg.extractContent = true)
    (hp : bot.extractPrompt msg.extractContent ≠ "")
    (hg : msg.extractGroupId = "") :
    bot.processMessage agent msg =
      some (bot.extractPrompt msg.extractContent,
        { recipient := msg.envelope.source
          text :=
            match agent (bot.extractPrompt msg.extractContent) with
            | .ok r => r
            | .error _ => apologyReply
          quoteMsgId := msg.envelope.timestamp
          quoteAuthor := msg.envelope.source }) := by
  unfold SignalBot.processMessage
  have hr : msg.getRecipient = msg.envelope.source := by
    rw [Message.getRecipient, hg]
    simp
  simp [hc, ht, hp, hr]

/-- C2 amended-claim witness: the reflected individual message
`"!ai what is 2+2"` with a failing completion client still produces an
immediate send of the apology to the envelope source. -/
theorem C2_immediateReply_witness :
    reflectedMsg.extractContent ≠ "" ∧
    defaultBot.isTriggered reflectedMsg.extractContent = true ∧
    defaultBot.extractPrompt reflectedMsg.extractContent ≠ "" ∧
    reflectedMsg.extractGroupId = "" ∧
    defaultBot.processMessage (fun _ => Except.error "down") reflectedMsg =
      some (defaultBot.extractPrompt reflectedMsg.extractContent,
        { recipient := reflectedMsg.envelope.source
          text := apologyReply
          quoteMsgId := reflectedMsg.envelope.timestamp
          quoteAuthor := reflectedMsg.envelope.source }) :=
  ⟨by decide, by decide, by decide, by decide,
   C2_immediateReply defaultBot (fun _ => Except.error "down") reflectedMsg
     (by decide) (by decide) (by decide) (by decide)⟩

/-- C4: on a completion-client failure the message is not dropped: the reply
text becomes the literal apology and the send carries the same recipient,
quote timestamp and quote author as the success path does. -/
theorem C4_apologyOnFailure (bot : SignalBot) (msg : Message) (e : String)
    (hc : msg.extractContent ≠ "")
    (ht : bot.isTriggered msg.extractContent = true)
    (hp : bot.extractPrompt msg.extractContent ≠ "") :
    bot.processMessage (fun _ => Except.error e) msg =
      some (bot.extractPrompt msg.extractContent,
        { recipient := msg.getRecipient
          text := apologyReply
          quoteMsgId := msg.envelope.timestamp
          quoteAuthor := msg.envelope.source }) ∧
    ∀ r : String,
      bot.processMessage (fun _ => Except.ok r) msg =
        some (bot.extractPrompt msg.extractContent,
          { recipient := msg.getRecipient
            text := r
            quoteMsgId := msg.envelope.timestamp
            quoteAuthor := msg.envelope.source }) := by
  constructor
  · unfold SignalBot.processMessage
    simp [hc, ht, hp]
  · intro r
    unfold SignalBot.processMessage
    simp [hc, ht, hp]

/-- C4 witness: on the reflected message `"!ai what is 2+2"`, the failure
trace sends the apology and the success trace sends `"4"`, with identical
recipient and quote metadata. -/
theorem C4_apologyOnFailure_witness :
    reflectedMsg.extractContent ≠ "" ∧
    defaultBot.isTriggered reflectedMsg.extractContent = true ∧
    defaultBot.extractPrompt reflectedMsg.extractContent ≠ "" ∧
    defaultBot.processMessage (fun _ => Except.error "boom") reflectedMsg =
      some (defaultBot.extractPrompt reflectedMsg.extractContent,
        { recipient := reflectedMsg.getRecipient
          text := apologyReply
          quoteMsgId := reflectedMsg.envelope.timestamp
          quoteAuthor := reflectedMsg.envelope.source }) ∧
    defaultBot.processMessage (fun _ => Except.ok "4") reflectedMsg =
      some (defaultBot.extractPrompt reflectedMsg.extractContent,
        { recipient := reflectedMsg.getRecipient
          text := "4"
          quoteMsgId := reflectedMsg.envelope.timestamp
          quoteAuthor := reflectedMsg.envelope.source }) :=
  ⟨by decide, by decide, by decide,
   (C4_apologyOnFailure defaultBot reflectedMsg "boom"
     (by decide) (by decide) (by decide)).1,
   (C4_apologyOnFailure defaultBot reflectedMsg "boom"
     (by decide) (by decide) (by decide)).2 "4"⟩

/-- C7: with the default activation prefix `"!ai"`, a text beginning
`"!aiuse"` never triggers while a text beginning `"!ai "` always does (every
trigger carries its mandatory separator), and matching is first-match-wins:
whenever the head of the trigger list matches, `isTriggered` is true and
`extractPrompt` strips that head, ignoring the rest of the list. -/
theorem C7_separator_firstMatch :
    (∀ s : String, defaultBot.isTriggered ("!aiuse" ++ s) = false) ∧
    (∀ s : String, defaultBot.isTriggered ("!ai " ++ s) = true) ∧
    (∀ (trigger : String) (rest : List String) (content : String),
      hasPrefix content trigger = true →
        isTriggeredLoop (trigger :: rest) content = true ∧
        extractPromptLoop (trigger :: rest) content =
          trimSpace (trimPrefix content trigger)) := by
  refine ⟨?_, ?_, ?_⟩
  · intro s
    obtain ⟨l⟩ := s
    rfl
  · intro s
    obtain ⟨l⟩ := s
    cases l <;> rfl
  · intro trigger rest content h
    constructor
    · simp [isTriggeredLoop, h]
    · simp [extractPromptLoop, h]

/-- C7 witness: `"!aiuse now"` does not trigger, `"!ai now"` does, and on a
two-element trigger list whose head matches `"!ai hi"` the head wins. -/
theorem C7_separator_firstMatch_witness :
    defaultBot.isTriggered ("!aiuse" ++ " now") = false ∧
    defaultBot.isTriggered ("!ai " ++ "now") = true ∧
    hasPrefix "!ai hi" "!ai " = true ∧
    isTriggeredLoop ["!ai ", "zz "] "!ai hi" = true ∧
    extractPromptLoop ["!ai ", "zz "] "!ai hi" = trimSpace (trimPrefix "!ai hi" "!ai ") :=
  ⟨C7_separator_firstMatch.1 " now",
   C7_separator_firstMatch.2.1 "now",
   by decide,
   (C7_separator_firstMatch.2.2 "!ai " ["zz "] "!ai hi" (by decide)).1,
   (C7_separator_firstMatch.2.2 "!ai " ["zz "] "!ai hi" (by decide)).2⟩

theorem put_find (t : PendingTable) (ts : Int) (p : String) (now : Int) :
    (t.put ts p now).entries.find? (fun e => e.1 = ts) = some (ts, p, now) := by
  simp [PendingTable.put, List.find?]

theorem find_false_none (l : List (Int × String × Int)) :
    l.find? (fun _ => false) = none := by
  induction l with
  | nil => rfl
  | cons a l ih => simp [List.find?, ih]

/-- C3: `put(ts, p)` immediately followed by `takeIfPresent({ts})` returns `p`
and removes the entry, and a second `takeIfPresent({ts})` on the resulting
table returns nothing — each pending-correlation entry is delivered to at
most one caller of `takeIfPresent`. -/
theorem C3_consumeOnce (t : PendingTable) (ts : Int) (p : String) (now : Int) :
    ((t.put ts p now).takeIfPresent [ts]).1 = some p ∧
    ((((t.put ts p now).takeIfPresent [ts]).2).takeIfPresent [ts]).1 = none := by
  have h1 : (t.put ts p now).takeIfPresent [ts] =
      (some p, { entries := (t.put ts p now).entries.filter (fun e => e.1 ≠ ts) }) := by
    simp [PendingTable.takeIfPresent, List.findSome?, put_find t ts p now]
  refine ⟨by rw [h1], ?_⟩
  rw [h1]
  simp only [PendingTable.takeIfPresent]
  simp [List.findSome?, find_false_none]

end SignalBotModel
